import Mathlib

/-!
Shallow embedding of `src/rust_lifetime_example_code.rs`.

A Rust `str` / `String` is UTF-8 encoded text; we embed it as Lean's
`String` (also a sequence of Unicode characters with a UTF-8 byte size).
Rust's `str::len` returns the length in bytes, embedded as
`String.utf8ByteSize`.  The program's three functions are pure except for
`change_string`, which mutates through a `&mut String`; mutation is
embedded by explicit state passing: the embedding of `change_string`
returns the final value of `*s` (the Rust function itself returns `()`).
-/

namespace RustLifetime

/-- Rust `str::len` / `String::len`: the length of the string in UTF-8 bytes. -/
def len (s : String) : Nat := s.utf8ByteSize

/-- Rust `String::push_str`: appends a string slice onto the end of the `String`. -/
def push_str (s t : String) : String := s ++ t

/-- Embedding of `fn calculate_length(s: &String) -> usize { s.len() }`. -/
def calculate_length (s : String) : Nat := len s

/-- Embedding of `fn change_string(s: &mut String) { s.push_str(", world!"); }`:
the value of `*s` after the call (the Rust function returns `()`; its only
effect is this mutation of the borrowed string). -/
def change_string (s : String) : String := push_str s ", world!"

/-- Embedding of
`fn longest<'a>(s1: &'a str, s2: &'a str) -> &'a str { if s1.len() > s2.len() { s1 } else { s2 } }`. -/
def longest (s1 s2 : String) : String :=
  if len s1 > len s2 then s1 else s2

/-- State-passing embedding of a call `calculate_length(&s)`: the pair of the
return value and the final value of `s`.  The body `s.len()` performs no write
through the shared reference, so the final value is the input. -/
def callCalculateLength (s : String) : Nat × String := (calculate_length s, s)

/-- State-passing embedding of a call `change_string(&mut s)`: the final value
of `s` after the call. -/
def callChangeString (s : String) : String := change_string s

/-- State-passing embedding of a call `longest(&s1, s2)`: the return value
together with the final values of the two borrowed strings.  Both parameters
are shared `&str` borrows and the body performs no write through them, so the
final values are the inputs. -/
def callLongest (s1 s2 : String) : String × String × String :=
  (longest s1 s2, s1, s2)

/-- The console output of `main`, as the list of lines printed by its two
`println!` statements, in order.  The embedding follows `main`'s body: `s1`
owns `"Hello"`, which is moved to `s2`; `calculate_length` borrows `s2`;
`change_string` mutably borrows `s3 = "Goodbye"`; `longest` is called on
`&s4` (`s4 = "Rust"`) and `"Language"`, but its result `r1` is never printed
(the `println!` using it is commented out).  `main` performs no other I/O,
so this list is the whole externally visible behaviour of a run. -/
def main_output : List String :=
  let s1 := "Hello"
  let s2 := s1
  let n := calculate_length s2
  let line1 := "The length of '" ++ s2 ++ "' is " ++ toString n ++ "."
  let s3 := change_string "Goodbye"
  let line2 := "The changed string is '" ++ s3 ++ "'."
  let s4 := "Rust"
  let _r1 := longest s4 "Language"
  [line1, line2]

/-- A run of `main` in an external world `w`.  The program reads no input,
consults no clock, randomness or environment, so the embedding of a run does
not depend on `w`: every run prints `main_output`. -/
def main_run (_w : Nat) : List String := main_output

/-- Panic-tracking embedding of Rust `str::len`: `len` never panics,
so the call always succeeds. -/
def lenE (s : String) : Except String Nat := .ok (len s)

/-- Panic-tracking embedding of Rust `String::push_str`: `push_str` has no
panicking branch (it cannot fail for any input), so the call always succeeds. -/
def push_strE (s t : String) : Except String String := .ok (push_str s t)

/-- Panic-tracking embedding of `calculate_length`: its body is the single
primitive call `s.len()`. -/
def calculate_lengthE (s : String) : Except String Nat := lenE s

/-- Panic-tracking embedding of `change_string`: its body is the single
primitive call `s.push_str(", world!")`. -/
def change_stringE (s : String) : Except String String := push_strE s ", world!"

/-- Panic-tracking embedding of `longest`: two primitive `len` calls, a
comparison, and a branch returning one of the arguments; no operation in the
body can panic. -/
def longestE (s1 s2 : String) : Except String String := do
  let n1 ← lenE s1
  let n2 ← lenE s2
  if n1 > n2 then pure s1 else pure s2

/-- Helper: the UTF-8 byte size of a string is the sum of the UTF-8 sizes of
its characters. -/
theorem utf8ByteSize_go_eq_sum (cs : List Char) :
    String.utf8ByteSize.go cs = (cs.map Char.utf8Size).sum := by
  induction cs with
  | nil => rfl
  | cons c cs ih =>
    show String.utf8ByteSize.go cs + c.utf8Size = ((c :: cs).map Char.utf8Size).sum
    rw [List.map_cons, List.sum_cons, ih, Nat.add_comm]

/-- Helper: `len` is the total UTF-8 byte size of the string's characters. -/
theorem len_eq_sum_utf8Size (s : String) :
    len s = (s.data.map Char.utf8Size).sum :=
  utf8ByteSize_go_eq_sum s.data

/-- Claim C1: `longest` returns the input with strictly greater length, and on
a tie it returns the second argument; selecting between `"Rust"` and
`"Language"` returns `"Language"`. -/
theorem longest_selects_longer (s1 s2 : String) :
    ((len s2 < len s1 ∧ longest s1 s2 = s1) ∨
     (len s1 ≤ len s2 ∧ longest s1 s2 = s2)) ∧
    longest "Rust" "Language" = "Language" := by
  constructor
  · by_cases h : len s2 < len s1
    · exact Or.inl ⟨h, by simp [longest, h]⟩
    · exact Or.inr ⟨Nat.le_of_not_lt h, by simp [longest, h]⟩
  · rfl

/-- Claim C2: `change_string` appends the fixed text `", world!"` to its
argument, and applied to `"Goodbye"` yields `"Goodbye, world!"`. -/
theorem change_string_appends (s : String) :
    change_string s = s ++ ", world!" ∧
    change_string "Goodbye" = "Goodbye, world!" :=
  ⟨rfl, rfl⟩

/-- Claim C3: `calculate_length` returns the size of its argument — the total
UTF-8 byte size of its characters — and applied to `"Hello"` it returns 5. -/
theorem calculate_length_is_size (s : String) :
    calculate_length s = (s.data.map Char.utf8Size).sum ∧
    calculate_length "Hello" = 5 :=
  ⟨len_eq_sum_utf8Size s, rfl⟩

/-- Claim C4: running `main` produces exactly the two formatted lines
`"The length of 'Hello' is 5."` and
`"The changed string is 'Goodbye, world!'."`, in that order, and nothing
else (`main_output` is the whole of the run's externally visible output). -/
theorem main_output_is_two_lines :
    main_output =
      ["The length of 'Hello' is 5.",
       "The changed string is 'Goodbye, world!'."] := by
  rfl

/-- Claim C5: `longest` always returns one of its two arguments; it never
fabricates a third string. -/
theorem longest_returns_an_argument (s1 s2 : String) :
    longest s1 s2 = s1 ∨ longest s1 s2 = s2 := by
  unfold longest
  split
  · exact Or.inl rfl
  · exact Or.inr rfl

/-- Claim C6: lengths are measured in bytes, not characters: there is a string
containing a multi-byte character whose `calculate_length` strictly exceeds
its character count, and a pair of inputs on which `longest` returns the
string with strictly fewer characters. -/
theorem length_is_bytes_not_chars :
    (∃ s : String, (∃ c ∈ s.data, 1 < c.utf8Size) ∧
      s.length < calculate_length s) ∧
    (∃ s1 s2 : String, longest s1 s2 = s1 ∧ s1.length < s2.length) := by
  refine ⟨⟨"é", ⟨'é', by decide, by decide⟩, by decide⟩,
          "é€", "abc", by decide, by decide⟩

/-- Claim C7: none of the three functions has an error condition: under the
panic-tracking embedding, every call returns normally (`Except.ok`) with the
function's value, for every input. -/
theorem no_error_branch (s t u1 u2 : String) :
    calculate_lengthE s = .ok (calculate_length s) ∧
    change_stringE t = .ok (change_string t) ∧
    longestE u1 u2 = .ok (longest u1 u2) := by
  refine ⟨rfl, rfl, ?_⟩
  unfold longestE longest
  show (if len u1 > len u2 then (pure u1 : Except String String) else pure u2) = _
  split
  · rfl
  · rfl

/-- Claim C8: `calculate_length` and `longest` leave their (borrowed)
arguments unchanged, and the only mutation in the program is
`change_string`'s append to its own argument. -/
theorem borrows_leave_arguments_unchanged (s t u1 u2 : String) :
    (callCalculateLength s).2 = s ∧
    (callLongest u1 u2).2 = (u1, u2) ∧
    callChangeString t = t ++ ", world!" :=
  ⟨rfl, rfl, rfl⟩

/-- Claim C9: the length of the string returned by `longest` is the maximum of
the lengths of its two arguments. -/
theorem longest_len_eq_max (s1 s2 : String) :
    len (longest s1 s2) = max (len s1) (len s2) := by
  unfold longest
  split
  · omega
  · omega

/-- Claim C10: the program is deterministic: any two runs of `main` print
identical output, and each of the three functions returns the same result on
any two calls at the same input. -/
theorem program_deterministic (w1 w2 : Nat) (s t u1 u2 : String) :
    main_run w1 = main_run w2 ∧
    calculate_length s = calculate_length s ∧
    change_string t = change_string t ∧
    longest u1 u2 = longest u1 u2 :=
  ⟨rfl, rfl, rfl, rfl⟩

end RustLifetime
